import Mathlib

/-!
# Retirement projection engine — formal verification of the specification

Shallow embedding of the retirement capital projection engine:

* the year-by-year / month-by-month simulation loop `calculateSimulation`
  of the compound-frequency variant of `RetirementSimulator`
  (src/unnamed/part_008, lines 88–331), together with its derived
  statistics (lines 382–496);
* the closed-form annuity utilities `calculateFutureValue`,
  `calculateWithdrawalAmount` and `calculateRateBasedWithdrawal`
  (src/src/utils/financialCalculations.ts and src/unnamed/part_002).

The loop uses only field operations (`+`, `-`, `*`, `max`, `Math.round`),
so it is embedded generically over a `LinearOrderedField` with a
`FloorRing` (instantiated at `ℚ` for concrete runs and at `ℝ` where the
statement needs the real 12th-root monthly rate).  The source derives the
monthly rate from the annual rate once, up front
(`monthlyReturn = (1 + rate/100)^(1/12) - 1` for monthly compounding,
`rate/100/12` for annual compounding, part_008 lines 100–103), and likewise
computes `capitalAtRetirement` and the initial withdrawal once before the
loop; the embedding mirrors this by carrying those precomputed values in
the parameter record, with their defining equations recorded where a claim
depends on them.

The closed-form utilities divide by the derived monthly rate and by the
period count; JavaScript turns those divisions into `NaN`/`Infinity`.
Fallible arithmetic is embedded with `Option ℝ`: `none` is the class of
non-finite results.
-/

namespace Retirement

/-- The three withdrawal strategies (`withdrawalMode` in the source:
`"amount" | "age" | "rate"`). -/
inductive WithdrawalMode where
  | amount : WithdrawalMode
  | age : WithdrawalMode
  | rate : WithdrawalMode
deriving DecidableEq, Repr

/-- The two compounding conventions (`compoundFrequency` in the source:
`'monthly' | 'annual'`). -/
inductive CompoundFrequency where
  | monthly : CompoundFrequency
  | annual : CompoundFrequency
deriving DecidableEq, Repr

/-- Rate-based monthly withdrawal, src/unnamed/part_002 lines 217–223:
`(capital * (withdrawalRate / 100)) / 12`. -/
def calculateRateBasedWithdrawal {α : Type} [LinearOrderedField α]
    (capital withdrawalRate : α) : α :=
  capital * (withdrawalRate / 100) / 12

/-- The annual-compounding branch of `calculateFutureValue`
(src/unnamed/part_002 lines 38–55): add the year's contributions at the
start of each year, then apply annual interest once. -/
def calculateFutureValueAnnual {α : Type} [LinearOrderedField α]
    (principal annualRate : α) (years : ℕ) (monthlyContribution : α) : α :=
  let annualContribution := monthlyContribution * 12
  (List.range years).foldl
    (fun totalValue _ => (totalValue + annualContribution) * (1 + annualRate / 100))
    principal

/-- One element of the simulation output (`GraphDataPoint` in the source,
pushed at part_008 lines 314–330 and 137–153).  Fields that the source
stores through `Math.round` are integers; the cumulative totals are stored
unrounded, as in the source. -/
structure GraphDataPoint (α : Type) where
  year : ℤ
  age : ℤ
  capital : ℤ
  capitalWithoutInterest : ℤ
  variation : ℤ
  retirement : Bool
  annualInvestment : ℤ
  annualWithdrawal : ℤ
  annualInterest : ℤ
  netVariationExcludingInterest : ℤ
  finalMonthlyInvestment : ℤ
  finalMonthlyWithdrawal : ℤ
  totalInvested : α
  totalWithdrawn : α
  targetAge : Bool
deriving DecidableEq, Repr, Inhabited

/-- The parameters of one simulation run (`SimulatorParams` plus the
constants the source derives once before the loop, part_008 lines 88–127).

* `retirementStartYear` is the already-resolved retirement calendar year
  (`getRetirementYear()`, lines 56–62); `currentYear` stands for
  `new Date().getFullYear()`.
* `monthlyReturn` is the derived monthly rate of lines 101–103:
  `(1 + annualReturnRate/100)^(1/12) - 1` when `compoundFrequency` is
  monthly, `(annualReturnRate/100)/12` when annual.  The 12th root is not
  representable in `ℚ`, so the derived value is carried as a field;
  theorems that depend on the derivation state it as an equation.
* `capitalAtRetirement` is the closed-form estimate of line 108
  (`calculateFutureValue(initialCapital, annualReturnRate,
  retirementStartIndex, monthlyInvestment, compoundFrequency)`), carried
  for the same reason.
* `ageModeWithdrawal` is the `calculateWithdrawalAmount` result used as the
  initial withdrawal in `"age"` mode (line 121), carried precomputed. -/
structure SimParams (α : Type) where
  initialCapital : α
  monthlyInvestment : α
  annualReturnRate : α
  inflation : α
  monthlyRetirementWithdrawal : α
  withdrawalMode : WithdrawalMode
  withdrawalRate : α
  ageModeWithdrawal : α
  compoundFrequency : CompoundFrequency
  currentYear : ℤ
  currentAge : ℤ
  retirementStartYear : ℤ
  maxAge : ℤ
  monthlyReturn : α
  capitalAtRetirement : α

variable {α : Type} [LinearOrderedField α] [FloorRing α]

/-- `targetMaxAge` (part_008 line 92): `maxAge` in `"age"` mode, `95`
otherwise. -/
def targetMaxAge (p : SimParams α) : ℤ :=
  if p.withdrawalMode = WithdrawalMode.age then p.maxAge else 95

/-- `simulationDuration = targetMaxAge - currentAge` (part_008 line 96). -/
def simulationDuration (p : SimParams α) : ℤ :=
  targetMaxAge p - p.currentAge

/-- Number of iterations of `for (let year = 0; year <= simulationDuration;
year++)` (part_008 line 130). -/
def numYears (p : SimParams α) : ℕ :=
  (simulationDuration p + 1).toNat

/-- `inRetirementPhase = simulatedYear >= calculatedRetirementStartYear`
(part_008 line 133). -/
def inRetB (p : SimParams α) (y : ℕ) : Bool :=
  decide (p.retirementStartYear ≤ p.currentYear + (y : ℤ))

/-- `isTransitionYear = simulatedYear === calculatedRetirementStartYear`
(part_008 line 158). -/
def isTransB (p : SimParams α) (y : ℕ) : Bool :=
  decide (p.currentYear + (y : ℤ) = p.retirementStartYear)

/-- The initial `currentMonthlyWithdrawal` (part_008 lines 119–127).  The
`"rate"` guard reproduces the JavaScript truthiness test
`params.withdrawalRate` (zero is falsy). -/
def initialWithdrawal (p : SimParams α) : α :=
  match p.withdrawalMode with
  | WithdrawalMode.age => p.ageModeWithdrawal
  | WithdrawalMode.rate =>
      if p.withdrawalRate ≠ 0 then
        calculateRateBasedWithdrawal p.capitalAtRetirement p.withdrawalRate
      else p.monthlyRetirementWithdrawal
  | WithdrawalMode.amount => p.monthlyRetirementWithdrawal

/-- The mutable variables of the outer year loop (part_008 lines 111–127). -/
structure SimState (α : Type) where
  capital : α
  principalOnly : α
  currentMonthlyInvestment : α
  currentMonthlyWithdrawal : α
  totalInvested : α
  totalWithdrawn : α
  isCapitalDepleted : Bool
deriving DecidableEq, Repr

/-- The variables live inside one year's cash-flow phase (part_008 lines
189–296): the yearly accumulators plus the outer variables the phase can
mutate.  `broken` models the `break` out of the monthly loop (line 202). -/
structure MonthState (α : Type) where
  capital : α
  currentMonthlyWithdrawal : α
  annualInvestment : α
  annualWithdrawal : α
  annualInterest : α
  totalInvested : α
  totalWithdrawn : α
  principalOnly : α
  broken : Bool
deriving DecidableEq, Repr

/-- One iteration of the monthly loop (part_008 lines 197–251).  The order
of operations follows the source: depletion check and `break`; interest on
the running capital; the phase-appropriate cash flow (with the rate-mode
recomputation guarded by `month === 0`, lines 225 and 241); the clamp of
negative capital to zero (line 250). -/
def monthStep (p : SimParams α) (isTrans inRet : Bool) (curInv : α)
    (s : MonthState α) (month : ℕ) : MonthState α :=
  if s.broken then s
  else if s.capital ≤ 0 then
    { s with capital := 0,
             principalOnly := max 0 (s.totalInvested - s.totalWithdrawn),
             broken := true }
  else
    let interest := s.capital * p.monthlyReturn
    let s1 : MonthState α :=
      { s with annualInterest := s.annualInterest + interest,
               capital := s.capital + interest }
    let s2 : MonthState α :=
      if isTrans then
        if month < 6 then
          { s1 with capital := s1.capital + curInv,
                    annualInvestment := s1.annualInvestment + curInv,
                    totalInvested := s1.totalInvested + curInv }
        else
          let s' : MonthState α :=
            if p.withdrawalMode = WithdrawalMode.rate ∧ p.withdrawalRate ≠ 0 ∧ month = 0 then
              { s1 with currentMonthlyWithdrawal :=
                  calculateRateBasedWithdrawal s1.capital p.withdrawalRate }
            else s1
          { s' with capital := s'.capital - s'.currentMonthlyWithdrawal,
                    annualWithdrawal := s'.annualWithdrawal + s'.currentMonthlyWithdrawal,
                    totalWithdrawn := s'.totalWithdrawn + s'.currentMonthlyWithdrawal }
      else if !inRet then
        { s1 with capital := s1.capital + curInv,
                  annualInvestment := s1.annualInvestment + curInv,
                  totalInvested := s1.totalInvested + curInv }
      else
        let s' : MonthState α :=
          if p.withdrawalMode = WithdrawalMode.rate ∧ p.withdrawalRate ≠ 0 ∧ month = 0 then
            { s1 with currentMonthlyWithdrawal :=
                calculateRateBasedWithdrawal s1.capital p.withdrawalRate }
          else s1
        { s' with capital := s'.capital - s'.currentMonthlyWithdrawal,
                  annualWithdrawal := s'.annualWithdrawal + s'.currentMonthlyWithdrawal,
                  totalWithdrawn := s'.totalWithdrawn + s'.currentMonthlyWithdrawal }
    if s2.capital < 0 then { s2 with capital := 0 } else s2

/-- The full monthly loop `for (let month = 0; month < 12; month++)`
(part_008 lines 197–251). -/
def monthRun (p : SimParams α) (isTrans inRet : Bool) (curInv : α)
    (s : MonthState α) : MonthState α :=
  (List.range 12).foldl (monthStep p isTrans inRet curInv) s

/-- The annual-compounding branch of a year (part_008 lines 252–296):
depletion check; lump-sum cash flows (full-year investment, half/half in
the transition year, full-year withdrawal with the rate-mode recomputation
of line 281); year-end interest on `max(0, capital)`; final clamp. -/
def annualRun (p : SimParams α) (isTrans inRet : Bool) (curInv : α)
    (s : MonthState α) : MonthState α :=
  let s1 : MonthState α :=
    if s.capital ≤ 0 then
      { s with capital := 0,
               principalOnly := max 0 (s.totalInvested - s.totalWithdrawn),
               broken := true }
    else
      let s2 : MonthState α :=
        if !inRet then
          let yearlyInvestment := curInv * 12
          { s with capital := s.capital + yearlyInvestment,
                   annualInvestment := yearlyInvestment,
                   totalInvested := s.totalInvested + yearlyInvestment }
        else if isTrans then
          let halfYearInvestment := curInv * 6
          let halfYearWithdrawal := s.currentMonthlyWithdrawal * 6
          { s with capital := s.capital + halfYearInvestment - halfYearWithdrawal,
                   annualInvestment := halfYearInvestment,
                   annualWithdrawal := halfYearWithdrawal,
                   totalInvested := s.totalInvested + halfYearInvestment,
                   totalWithdrawn := s.totalWithdrawn + halfYearWithdrawal }
        else
          let s' : MonthState α :=
            if p.withdrawalMode = WithdrawalMode.rate ∧ p.withdrawalRate ≠ 0 then
              { s with currentMonthlyWithdrawal :=
                  calculateRateBasedWithdrawal s.capital p.withdrawalRate }
            else s
          let yearlyWithdrawal := s'.currentMonthlyWithdrawal * 12
          { s' with capital := s'.capital - yearlyWithdrawal,
                    annualWithdrawal := yearlyWithdrawal,
                    totalWithdrawn := s'.totalWithdrawn + yearlyWithdrawal }
      let interest := max 0 s2.capital * (p.annualReturnRate / 100)
      { s2 with annualInterest := interest, capital := s2.capital + interest }
  if s1.capital < 0 then { s1 with capital := 0 } else s1

/-- The forward projection of the previous year's (rounded) ending capital
used at the retirement-year boundary (part_008 lines 165–179): for each of
12 months, add the monthly investment during the first 6 months, then apply
one month of interest. -/
def naturalGrowth (p : SimParams α) (prevCapital curInv : α) : α :=
  (List.range 12).foldl
    (fun c month => (if month < 6 then c + curInv else c) * (1 + p.monthlyReturn))
    prevCapital

/-- The retirement-year starting-capital reconciliation (part_008 lines
162–187): in the transition year (when it is not year 0), replace the
running capital by the larger of the naturally-grown previous snapshot
capital and the closed-form `capitalAtRetirement`; the `data.length === 0`
branch falls back to the closed-form value alone. -/
def transitionCapital (p : SimParams α) (y : ℕ) (st : SimState α)
    (data : List (GraphDataPoint α)) : α :=
  if isTransB p y && decide (0 < y) then
    match data.getLast? with
    | some prev =>
        max (naturalGrowth p (prev.capital : α) st.currentMonthlyInvestment)
          p.capitalAtRetirement
    | none => p.capitalAtRetirement
  else st.capital

/-- Packaging of the outer variables into the in-year state (the yearly
accumulators of part_008 lines 190–192 start at zero). -/
def mkMonthState (st : SimState α) (cap0 : α) : MonthState α :=
  { capital := cap0,
    currentMonthlyWithdrawal := st.currentMonthlyWithdrawal,
    annualInvestment := 0, annualWithdrawal := 0, annualInterest := 0,
    totalInvested := st.totalInvested, totalWithdrawn := st.totalWithdrawn,
    principalOnly := st.principalOnly, broken := false }

/-- The result of one year's iteration: the new outer state, the pushed
snapshot, and the exact (pre-rounding) values of the year's local
variables, kept so that theorems can speak about them directly. -/
structure YearRes (α : Type) where
  state : SimState α
  snap : GraphDataPoint α
  capitalAtStart : α
  annualInvestmentX : α
  annualWithdrawalX : α
  annualInterestX : α
  netVariationX : α
deriving Repr

/-- The cash-flow phase of one year: monthly loop or annual lump-sum branch
according to `compoundFrequency` (part_008 lines 195–296). -/
def yearCashFlow (p : SimParams α) (y : ℕ) (st : SimState α) (cap0 : α) :
    MonthState α :=
  match p.compoundFrequency with
  | CompoundFrequency.monthly =>
      monthRun p (isTransB p y) (inRetB p y) st.currentMonthlyInvestment
        (mkMonthState st cap0)
  | CompoundFrequency.annual =>
      annualRun p (isTransB p y) (inRetB p y) st.currentMonthlyInvestment
        (mkMonthState st cap0)

/-- The year-end inflation adjustment of the contribution rate (part_008
lines 299–302). -/
def newInvAfter (p : SimParams α) (y : ℕ) (st : SimState α) : α :=
  if !(inRetB p y) || isTransB p y then
    st.currentMonthlyInvestment * (1 + p.inflation / 100)
  else st.currentMonthlyInvestment

/-- The year-end inflation adjustment of the withdrawal rate (part_008
lines 304–307). -/
def newWdAfter (p : SimParams α) (y : ℕ) (m : MonthState α) : α :=
  if inRetB p y || isTransB p y then
    m.currentMonthlyWithdrawal * (1 + p.inflation / 100)
  else m.currentMonthlyWithdrawal

/-- The depleted short-circuit of a year (part_008 lines 135–155): push an
all-zero snapshot, leave the outer variables untouched, `continue`. -/
def yearResDepleted (p : SimParams α) (y : ℕ) (st : SimState α) : YearRes α :=
  { state := { st with isCapitalDepleted := true },
    snap :=
      { year := p.currentYear + (y : ℤ), age := p.currentAge + (y : ℤ),
        capital := 0, capitalWithoutInterest := 0, variation := 0,
        retirement := inRetB p y,
        annualInvestment := 0, annualWithdrawal := 0, annualInterest := 0,
        netVariationExcludingInterest := 0,
        finalMonthlyInvestment := round st.currentMonthlyInvestment,
        finalMonthlyWithdrawal := round st.currentMonthlyWithdrawal,
        totalInvested := st.totalInvested, totalWithdrawn := st.totalWithdrawn,
        targetAge := decide (p.currentAge + (y : ℤ) = targetMaxAge p) },
    capitalAtStart := st.capital,
    annualInvestmentX := 0, annualWithdrawalX := 0, annualInterestX := 0,
    netVariationX := 0 }

/-- An actively-simulated year (part_008 lines 158–330): transition-year
capital reconciliation, cash-flow phase, year-end inflation adjustment,
`principalOnly = max(0, totalInvested - totalWithdrawn)` (line 309),
`netVariationExcludingInterest` (line 312), and the rounded snapshot. -/
def yearResActive (p : SimParams α) (y : ℕ) (st : SimState α)
    (data : List (GraphDataPoint α)) : YearRes α :=
  let cap0 := transitionCapital p y st data
  let mEnd := yearCashFlow p y st cap0
  let newInv := newInvAfter p y st
  let newWd := newWdAfter p y mEnd
  let principalOnly := max 0 (mEnd.totalInvested - mEnd.totalWithdrawn)
  let netVar := if inRetB p y then -mEnd.annualWithdrawal else mEnd.annualInvestment
  { state :=
      { capital := mEnd.capital, principalOnly := principalOnly,
        currentMonthlyInvestment := newInv, currentMonthlyWithdrawal := newWd,
        totalInvested := mEnd.totalInvested, totalWithdrawn := mEnd.totalWithdrawn,
        isCapitalDepleted := st.isCapitalDepleted || mEnd.broken },
    snap :=
      { year := p.currentYear + (y : ℤ), age := p.currentAge + (y : ℤ),
        capital := round mEnd.capital,
        capitalWithoutInterest := round principalOnly,
        variation := round (mEnd.capital - cap0), retirement := inRetB p y,
        annualInvestment := round mEnd.annualInvestment,
        annualWithdrawal := round mEnd.annualWithdrawal,
        annualInterest := round mEnd.annualInterest,
        netVariationExcludingInterest := round netVar,
        finalMonthlyInvestment := round newInv,
        finalMonthlyWithdrawal := round newWd,
        totalInvested := mEnd.totalInvested, totalWithdrawn := mEnd.totalWithdrawn,
        targetAge := decide (p.currentAge + (y : ℤ) = targetMaxAge p) },
    capitalAtStart := cap0,
    annualInvestmentX := mEnd.annualInvestment,
    annualWithdrawalX := mEnd.annualWithdrawal,
    annualInterestX := mEnd.annualInterest,
    netVariationX := netVar }

/-- One iteration of the outer year loop (part_008 lines 130–331): the
depleted short-circuit of lines 135–155, otherwise the active year. -/
def yearOut (p : SimParams α) (y : ℕ) (st : SimState α)
    (data : List (GraphDataPoint α)) : YearRes α :=
  if st.capital ≤ 0 then yearResDepleted p y st else yearResActive p y st data

/-- The state the simulation starts from (part_008 lines 111–127). -/
def initState (p : SimParams α) : SimState α :=
  { capital := p.initialCapital, principalOnly := p.initialCapital,
    currentMonthlyInvestment := p.monthlyInvestment,
    currentMonthlyWithdrawal := initialWithdrawal p,
    totalInvested := p.initialCapital, totalWithdrawn := 0,
    isCapitalDepleted := false }

/-- One step of the outer fold: run the year, push its snapshot. -/
def yearIter (p : SimParams α) (acc : SimState α × List (GraphDataPoint α))
    (y : ℕ) : SimState α × List (GraphDataPoint α) :=
  let r := yearOut p y acc.1 acc.2
  (r.state, acc.2 ++ [r.snap])

/-- The state and emitted data after the first `n` year iterations. -/
def iterAt (p : SimParams α) (n : ℕ) : SimState α × List (GraphDataPoint α) :=
  (List.range n).foldl (yearIter p) (initState p, [])

/-- The outer state entering year iteration `n`. -/
def stateAt (p : SimParams α) (n : ℕ) : SimState α :=
  (iterAt p n).1

/-- The snapshots emitted by the first `n` year iterations. -/
def dataAt (p : SimParams α) (n : ℕ) : List (GraphDataPoint α) :=
  (iterAt p n).2

/-- The full result of year iteration `y` within the run of `p`. -/
def yearResAt (p : SimParams α) (y : ℕ) : YearRes α :=
  yearOut p y (stateAt p y) (dataAt p y)

/-- The snapshot emitted for year `y`. -/
def snapAt (p : SimParams α) (y : ℕ) : GraphDataPoint α :=
  (yearResAt p y).snap

/-- The capital the cash-flow phase of year `y` starts from, i.e. the value
of `capital` right after the transition-year reconciliation (part_008 line
189, `let capitalAtStart = capital`). -/
def capital0At (p : SimParams α) (y : ℕ) : α :=
  transitionCapital p y (stateAt p y) (dataAt p y)

/-- The full simulation, `calculateSimulation` (part_008 lines 88–333):
the list of yearly snapshots. -/
def calculateSimulation (p : SimParams α) : List (GraphDataPoint α) :=
  (iterAt p (numYears p)).2

/-- The in-year monthly state of year `y` before month `m` (monthly
compounding).  `monthStateAt p y 0` is the state entering the monthly loop;
`monthStateAt p y 12` the state leaving it. -/
def monthStateAt (p : SimParams α) (y : ℕ) (m : ℕ) : MonthState α :=
  (List.range m).foldl
    (monthStep p (isTransB p y) (inRetB p y) (stateAt p y).currentMonthlyInvestment)
    (mkMonthState (stateAt p y) (capital0At p y))

/-- The capital balance at the start of month `m` of year `y`. -/
def capitalAtMonthStart (p : SimParams α) (y : ℕ) (m : ℕ) : α :=
  (monthStateAt p y m).capital

/-- The withdrawal applied during month `m` of year `y` (the increment of
the yearly withdrawal accumulator). -/
def withdrawnInMonth (p : SimParams α) (y : ℕ) (m : ℕ) : α :=
  (monthStateAt p y (m + 1)).annualWithdrawal - (monthStateAt p y m).annualWithdrawal

/-! ## Derived statistics (part_008 lines 382–496) -/

/-- `isCapitalExhausted = graphData.length > 0 &&
graphData[graphData.length - 1].capital <= 0` (part_008 line 390). -/
def isCapitalExhausted (data : List (GraphDataPoint α)) : Bool :=
  decide (0 < data.length) &&
    (match data.getLast? with
     | some l => decide (l.capital ≤ 0)
     | none => false)

/-- `firstExhaustionPoint = isCapitalExhausted ? graphData.find(point =>
point.capital <= 0) : null` (part_008 lines 393–395). -/
def firstExhaustionPoint (data : List (GraphDataPoint α)) :
    Option (GraphDataPoint α) :=
  if isCapitalExhausted data then
    data.find? (fun pt => decide (pt.capital ≤ 0))
  else none

/-- `exhaustionYear` (part_008 lines 396–398); `none` models the string
`"Not exhausted"`. -/
def exhaustionYear (data : List (GraphDataPoint α)) : Option ℤ :=
  match firstExhaustionPoint data with
  | some pt => some pt.year
  | none => none

/-- `exhaustionAge` (part_008 lines 399–401): the first exhaustion point's
age, falling back to `retirementStartAge`. -/
def exhaustionAge (retirementStartAge : ℤ) (data : List (GraphDataPoint α)) : ℤ :=
  match firstExhaustionPoint data with
  | some pt => pt.age
  | none => retirementStartAge


/-! ## Structural facts about the year loop -/

theorem iterAt_succ (p : SimParams α) (n : ℕ) :
    iterAt p (n + 1) = yearIter p (iterAt p n) n := by
  unfold iterAt
  rw [List.range_succ, List.foldl_append, List.foldl_cons, List.foldl_nil]

theorem stateAt_succ (p : SimParams α) (n : ℕ) :
    stateAt p (n + 1) = (yearResAt p n).state := by
  unfold stateAt yearResAt
  rw [iterAt_succ]
  rfl

theorem dataAt_succ (p : SimParams α) (n : ℕ) :
    dataAt p (n + 1) = dataAt p n ++ [snapAt p n] := by
  unfold dataAt snapAt yearResAt
  rw [iterAt_succ]
  rfl

theorem dataAt_length (p : SimParams α) (n : ℕ) :
    (dataAt p n).length = n := by
  induction n with
  | zero => rfl
  | succ n ih => rw [dataAt_succ, List.length_append, ih]; rfl

theorem dataAt_getElem? (p : SimParams α) {n j : ℕ} (h : j < n) :
    (dataAt p n)[j]? = some (snapAt p j) := by
  induction n with
  | zero => omega
  | succ n ih =>
      rw [dataAt_succ]
      rcases Nat.lt_succ_iff_lt_or_eq.mp h with h' | h'
      · rw [List.getElem?_append_left (by rw [dataAt_length]; exact h')]
        exact ih h'
      · subst h'
        rw [List.getElem?_append_right (by rw [dataAt_length])]
        simp [dataAt_length]

/-- The `j`-th snapshot of the simulation output is the one pushed at year
iteration `j`. -/
theorem calculateSimulation_get (p : SimParams α) (j : ℕ)
    (hj : j < (calculateSimulation p).length) :
    (calculateSimulation p).get ⟨j, hj⟩ = snapAt p j := by
  have h : j < numYears p := by
    have := dataAt_length p (numYears p)
    unfold calculateSimulation at hj
    unfold dataAt at this
    omega
  have h2 := dataAt_getElem? p h
  unfold calculateSimulation
  unfold dataAt at h2
  have h3 := List.getElem?_eq_getElem (l := (iterAt p (numYears p)).2) (n := j)
    (by simpa [calculateSimulation] using hj)
  rw [h3] at h2
  simpa [List.get_eq_getElem] using Option.some.inj h2

theorem calculateSimulation_length (p : SimParams α) :
    (calculateSimulation p).length = numYears p :=
  dataAt_length p (numYears p)


-- The Batteries rational primitives are `irreducible`, which blocks kernel
-- evaluation inside `decide`; restore the default transparency so concrete
-- runs can be checked by evaluation.
attribute [local semireducible] Rat.add Rat.mul Rat.inv Rat.sub

/-! ## Concrete runs

Each scenario fixes the derived fields exactly as the source computes them:
with `annualReturnRate = 0` (or annual compounding) the derived
`monthlyReturn` is rational, and with the rate of `pThree` the monthly-mode
12th root `(1 + rate/100)^(1/12)` equals `13/12` exactly, so the runs below
are exact rational replays of the JavaScript arithmetic.  The
`capitalAtRetirement` field is the closed-form value the source computes at
part_008 line 108 (`calculateFutureValueAnnual` for annual runs; for
`pThree` the monthly closed form with zero contribution,
`10000 * (13/12)^12`). -/

/-- Annual compounding, zero growth and inflation, fixed withdrawal 1000/mo,
retirement in the current year, initial capital 18000.25.  The year-1
snapshot displays capital 0 (the internal balance is 0.25), and year 2
still withdraws. -/
def pOne : SimParams ℚ :=
  { initialCapital := 72001/4, monthlyInvestment := 0, annualReturnRate := 0,
    inflation := 0, monthlyRetirementWithdrawal := 1000,
    withdrawalMode := WithdrawalMode.amount, withdrawalRate := 0,
    ageModeWithdrawal := 0, compoundFrequency := CompoundFrequency.annual,
    currentYear := 2025, currentAge := 40, retirementStartYear := 2025,
    maxAge := 95, monthlyReturn := 0 / 100 / 12,
    capitalAtRetirement := calculateFutureValueAnnual (72001/4) 0 0 0 }

/-- Annual compounding, 5% growth, 2% inflation, retirement one year out:
exercises the retirement-year capital reconciliation. -/
def pTwo : SimParams ℚ :=
  { initialCapital := 10000, monthlyInvestment := 500, annualReturnRate := 5,
    inflation := 2, monthlyRetirementWithdrawal := 2000,
    withdrawalMode := WithdrawalMode.amount, withdrawalRate := 0,
    ageModeWithdrawal := 0, compoundFrequency := CompoundFrequency.annual,
    currentYear := 2025, currentAge := 40, retirementStartYear := 2026,
    maxAge := 95, monthlyReturn := 5 / 100 / 12,
    capitalAtRetirement := calculateFutureValueAnnual 10000 5 1 500 }

/-- Monthly compounding in `"rate"` mode (4%-style percentage-of-capital
strategy, here 12%).  The annual rate is chosen so that the source's
derived monthly rate `(1 + rate/100)^(1/12) - 1` is exactly `1/12`. -/
def pThree : SimParams ℚ :=
  { initialCapital := 10000, monthlyInvestment := 0,
    annualReturnRate := 100 * ((13/12)^12 - 1),
    inflation := 0, monthlyRetirementWithdrawal := 2000,
    withdrawalMode := WithdrawalMode.rate, withdrawalRate := 12,
    ageModeWithdrawal := 0, compoundFrequency := CompoundFrequency.monthly,
    currentYear := 2025, currentAge := 40, retirementStartYear := 2026,
    maxAge := 95, monthlyReturn := 1/12,
    capitalAtRetirement := 10000 * (13/12)^12 }

/-- Annual compounding, zero rates, retirement in the current year with
both a contribution (500/mo) and a withdrawal (1000/mo): the transition
year records both flows. -/
def pSix : SimParams ℚ :=
  { initialCapital := 100000, monthlyInvestment := 500, annualReturnRate := 0,
    inflation := 0, monthlyRetirementWithdrawal := 1000,
    withdrawalMode := WithdrawalMode.amount, withdrawalRate := 0,
    ageModeWithdrawal := 0, compoundFrequency := CompoundFrequency.annual,
    currentYear := 2025, currentAge := 40, retirementStartYear := 2025,
    maxAge := 95, monthlyReturn := 0 / 100 / 12,
    capitalAtRetirement := calculateFutureValueAnnual 100000 0 0 500 }

/-- A malformed parameter set in the sense of the specification: the
resolved retirement year is the current year, so the resolved retirement
age equals `currentAge` (the spec requires rejection with
`InvalidParameters`). -/
def pNine : SimParams ℚ :=
  { initialCapital := 10000, monthlyInvestment := 500, annualReturnRate := 0,
    inflation := 0, monthlyRetirementWithdrawal := 2000,
    withdrawalMode := WithdrawalMode.amount, withdrawalRate := 0,
    ageModeWithdrawal := 0, compoundFrequency := CompoundFrequency.annual,
    currentYear := 2025, currentAge := 40, retirementStartYear := 2025,
    maxAge := 95, monthlyReturn := 0 / 100 / 12,
    capitalAtRetirement := calculateFutureValueAnnual 10000 0 0 500 }

/-- Annual compounding at the `-100%` rate (whose derived monthly-mode rate
`(1 + (-100)/100)^(1/12) - 1 = -1` and annual-mode rate `-1/12` are exact
even in floating point), fixed withdrawal 100/mo, retirement in the current
year: the capital is wiped out by interest in year 0 while
`totalInvested - totalWithdrawn = 400 > 0`. -/
def pTen : SimParams ℚ :=
  { initialCapital := 1000, monthlyInvestment := 0, annualReturnRate := -100,
    inflation := 0, monthlyRetirementWithdrawal := 100,
    withdrawalMode := WithdrawalMode.amount, withdrawalRate := 0,
    ageModeWithdrawal := 0, compoundFrequency := CompoundFrequency.annual,
    currentYear := 2025, currentAge := 40, retirementStartYear := 2025,
    maxAge := 95, monthlyReturn := -100 / 100 / 12,
    capitalAtRetirement := calculateFutureValueAnnual 1000 (-100) 0 0 }

/-- C1, counterexample: a snapshot can display `capital == 0` (the rounded
value of a still-positive internal balance) while the following snapshot
records a nonzero withdrawal, so `capital == 0` in a snapshot is not an
absorbing condition.  In `pOne`, year 1 ends with internal capital `0.25`
(snapshot capital `0`) and year 2 withdraws 12000. -/
theorem C1_cx :
    (snapAt pOne 1).capital = 0 ∧ (snapAt pOne 2).annualWithdrawal ≠ 0 := by
  decide

/-- C6, counterexample: in the transition year both flows are nonzero and
the recorded `netVariationExcludingInterest` is `-annualWithdrawal`, not
`annualInvestment - annualWithdrawal`: in `pSix`, year 0 records
investment 3000, withdrawal 6000, and net variation `-6000 ≠ -3000`. -/
theorem C6_cx :
    (snapAt pSix 0).netVariationExcludingInterest ≠
      (snapAt pSix 0).annualInvestment - (snapAt pSix 0).annualWithdrawal := by
  decide

/-- C10, counterexample: the all-zero snapshots emitted after depletion
store `capitalWithoutInterest = 0` even when
`totalInvested - totalWithdrawn` is positive.  In `pTen`, the year-1
snapshot has `capitalWithoutInterest = 0` but carries
`totalInvested = 1000`, `totalWithdrawn = 600`. -/
theorem C10_cx :
    (snapAt pTen 1).capitalWithoutInterest ≠
      round (max 0 ((snapAt pTen 1).totalInvested - (snapAt pTen 1).totalWithdrawn)) := by
  decide

set_option maxRecDepth 4000 in
/-- C3, counterexample: under the `"rate"` strategy the monthly withdrawal
is not recomputed at the start of every decumulation month; it is
recomputed only at month 0 of a non-transition decumulation year (from the
post-interest balance) and then held fixed.  In `pThree`, month 1 of year 2
applies the month-0 amount, which differs from
`capital-at-start-of-month-1 × (rate/100)/12`. -/
theorem C3_cx :
    withdrawnInMonth pThree 2 1 ≠
      capitalAtMonthStart pThree 2 1 * (pThree.withdrawalRate / 100) / 12 := by
  decide

/-- C9, counterexample: the entry point performs no validation and returns
a full 56-snapshot result even when the resolved retirement age equals
`currentAge` (an input the specification says must be rejected with
`InvalidParameters` and no result). -/
theorem C9_cx : (calculateSimulation pNine).length = 56 := by
  decide

/-- C9 (amended): `calculateSimulation` is total and never rejects: for
every parameter set, malformed or not, it returns exactly
`(simulationDuration + 1).toNat` snapshots — one per loop iteration — and
no error path exists. -/
theorem C9_no_validation (p : SimParams α) :
    (calculateSimulation p).length = (simulationDuration p + 1).toNat :=
  dataAt_length p (numYears p)


/-! ## C4: exhaustion statistics -/

/-- `List.find?` returns the first element satisfying the predicate:
characterization by index. -/
theorem find?_first {β : Type} (q : β → Bool) :
    ∀ (l : List β) (x : β), l.find? q = some x →
      ∃ i, ∃ hi : i < l.length, l.get ⟨i, hi⟩ = x ∧ q x = true ∧
        ∀ j (hj2 : j < l.length), j < i → q (l.get ⟨j, hj2⟩) = false := by
  intro l
  induction l with
  | nil => intro x h; simp [List.find?] at h
  | cons a t ih =>
      intro x h
      by_cases ha : q a = true
      · rw [List.find?_cons_of_pos _ ha] at h
        refine ⟨0, by simp, by simpa using Option.some.inj h, ?_, ?_⟩
        · rw [← Option.some.inj h]; exact ha
        · intro j hj2 hj; omega
      · rw [List.find?_cons_of_neg _ (by simpa using ha)] at h
        obtain ⟨i, hi, hget, hq, hfirst⟩ := ih x h
        refine ⟨i + 1, by simpa using Nat.succ_lt_succ hi, by simpa using hget, hq, ?_⟩
        intro j hj2 hj
        match j with
        | 0 => simpa using ha
        | j + 1 =>
            exact hfirst j (by simpa using Nat.lt_of_succ_lt_succ hj2)
              (Nat.lt_of_succ_lt_succ hj)

omit [LinearOrderedField α] [FloorRing α] in
/-- C4: on a result whose last snapshot has `capital ≤ 0`, the derived
statistics set `isCapitalExhausted` and take the exhaustion year and age
from the first snapshot with `capital ≤ 0` — not from the last (part_008
lines 389–401). -/
theorem C4_first_exhaustion (retirementStartAge : ℤ)
    (data : List (GraphDataPoint α)) (hne : data ≠ [])
    (hlast : (data.getLast hne).capital ≤ 0) :
    isCapitalExhausted data = true ∧
    ∃ i, ∃ hi : i < data.length,
      (data.get ⟨i, hi⟩).capital ≤ 0 ∧
      (∀ j (hj2 : j < data.length), j < i → ¬ (data.get ⟨j, hj2⟩).capital ≤ 0) ∧
      exhaustionYear data = some ((data.get ⟨i, hi⟩).year) ∧
      exhaustionAge retirementStartAge data = (data.get ⟨i, hi⟩).age := by
  have hex : isCapitalExhausted data = true := by
    unfold isCapitalExhausted
    rw [data.getLast?_eq_getLast hne]
    simp [List.length_pos, hne, hlast]
  refine ⟨hex, ?_⟩
  have hsome : (data.find? (fun pt => decide (pt.capital ≤ 0))).isSome := by
    rw [List.find?_isSome]
    exact ⟨data.getLast hne, List.getLast_mem hne, by simpa using hlast⟩
  obtain ⟨pt, hpt⟩ := Option.isSome_iff_exists.mp hsome
  obtain ⟨i, hi, hget, hq, hfirst⟩ := find?_first _ data pt hpt
  refine ⟨i, hi, ?_, ?_, ?_, ?_⟩
  · rw [hget]; simpa using hq
  · intro j hj2 hj
    have := hfirst j hj2 hj
    simpa using this
  · unfold exhaustionYear firstExhaustionPoint
    rw [if_pos hex, hpt, hget]
  · unfold exhaustionAge firstExhaustionPoint
    rw [if_pos hex, hpt, hget]

/-- A minimal snapshot record used to instantiate statistics theorems. -/
def mkPt (year age capital : ℤ) : GraphDataPoint ℚ :=
  { year := year, age := age, capital := capital, capitalWithoutInterest := 0,
    variation := 0, retirement := true, annualInvestment := 0,
    annualWithdrawal := 0, annualInterest := 0,
    netVariationExcludingInterest := 0, finalMonthlyInvestment := 0,
    finalMonthlyWithdrawal := 0, totalInvested := 0, totalWithdrawn := 0,
    targetAge := false }

/-- Witness for C4 at a concrete depleted result: three snapshots, the
last two with zero capital. -/
theorem C4_witness :
    isCapitalExhausted [mkPt 2025 40 5, mkPt 2026 41 0, mkPt 2027 42 0] = true ∧
    ∃ i, ∃ hi : i < ([mkPt 2025 40 5, mkPt 2026 41 0, mkPt 2027 42 0] :
        List (GraphDataPoint ℚ)).length,
      (([mkPt 2025 40 5, mkPt 2026 41 0, mkPt 2027 42 0] :
          List (GraphDataPoint ℚ)).get ⟨i, hi⟩).capital ≤ 0 ∧
      (∀ j (hj2 : j < ([mkPt 2025 40 5, mkPt 2026 41 0, mkPt 2027 42 0] :
          List (GraphDataPoint ℚ)).length), j < i →
        ¬ (([mkPt 2025 40 5, mkPt 2026 41 0, mkPt 2027 42 0] :
            List (GraphDataPoint ℚ)).get ⟨j, hj2⟩).capital ≤ 0) ∧
      exhaustionYear [mkPt 2025 40 5, mkPt 2026 41 0, mkPt 2027 42 0] =
        some ((([mkPt 2025 40 5, mkPt 2026 41 0, mkPt 2027 42 0] :
          List (GraphDataPoint ℚ)).get ⟨i, hi⟩).year) ∧
      exhaustionAge 65 [mkPt 2025 40 5, mkPt 2026 41 0, mkPt 2027 42 0] =
        (([mkPt 2025 40 5, mkPt 2026 41 0, mkPt 2027 42 0] :
          List (GraphDataPoint ℚ)).get ⟨i, hi⟩).age :=
  C4_first_exhaustion 65 [mkPt 2025 40 5, mkPt 2026 41 0, mkPt 2027 42 0]
    (by decide) (by decide)


/-! ## C2: retirement-year capital reconciliation -/

theorem yearOut_of_depleted (p : SimParams α) (y : ℕ) (st : SimState α)
    (data : List (GraphDataPoint α)) (h : st.capital ≤ 0) :
    yearOut p y st data = yearResDepleted p y st := by
  rw [yearOut, if_pos h]

theorem yearOut_of_active (p : SimParams α) (y : ℕ) (st : SimState α)
    (data : List (GraphDataPoint α)) (h : ¬ st.capital ≤ 0) :
    yearOut p y st data = yearResActive p y st data := by
  rw [yearOut, if_neg h]

theorem dataAt_ne_nil (p : SimParams α) {y : ℕ} (hy : 0 < y) :
    dataAt p y ≠ [] := by
  intro h
  have := dataAt_length p y
  rw [h] at this
  simp at this
  omega

/-- C2: whenever the retirement year is entered as a later simulated year
(with capital still positive), the starting capital of that year is the
maximum of the naturally-compounded forward value of the previous
snapshot's capital and the closed-form `capitalAtRetirement` estimate —
never the closed-form estimate alone. -/
theorem C2_max_reconciliation (p : SimParams α) (y : ℕ)
    (ht : isTransB p y = true) (hy : 0 < y)
    (hcap : 0 < (stateAt p y).capital) (_hin : y < numYears p) :
    ∃ prev, (dataAt p y).getLast? = some prev ∧
      (yearResAt p y).capitalAtStart =
        max (naturalGrowth p (prev.capital : α)
              (stateAt p y).currentMonthlyInvestment)
          p.capitalAtRetirement := by
  have hne : dataAt p y ≠ [] := dataAt_ne_nil p hy
  refine ⟨(dataAt p y).getLast hne, (dataAt p y).getLast?_eq_getLast hne, ?_⟩
  rw [yearResAt, yearOut_of_active _ _ _ _ (not_le.mpr hcap)]
  show transitionCapital p y (stateAt p y) (dataAt p y) = _
  rw [transitionCapital, if_pos (by simp [ht, hy]),
    (dataAt p y).getLast?_eq_getLast hne]

/-- Witness for C2: in `pTwo` the retirement year is iteration 1, reached
with capital 16800 > 0. -/
theorem C2_witness :
    ∃ prev, (dataAt pTwo 1).getLast? = some prev ∧
      (yearResAt pTwo 1).capitalAtStart =
        max (naturalGrowth pTwo (prev.capital : ℚ)
              (stateAt pTwo 1).currentMonthlyInvestment)
          pTwo.capitalAtRetirement :=
  C2_max_reconciliation pTwo 1 (by decide) (by decide) (by decide) (by decide)


/-! ## C3: rate-mode withdrawal recomputation -/

omit [FloorRing α] in
/-- C3 (amended): under the `"rate"` strategy in the monthly loop, the
withdrawal is recomputed from the current capital only at month 0 of a
non-transition decumulation year — using the balance after that month's
interest, `capital * (1 + monthlyReturn)` — and is held fixed for months
1–11; in the transition year it is never recomputed (the `month === 0`
guard cannot hold in the withdrawal half, months 6–11). -/
theorem C3_recompute_rule (p : SimParams α) (s : MonthState α) (ci : α)
    (hmode : p.withdrawalMode = WithdrawalMode.rate)
    (hrate : p.withdrawalRate ≠ 0)
    (hb : s.broken = false) (hc : 0 < s.capital) :
    ((monthStep p false true ci s 0).annualWithdrawal =
        s.annualWithdrawal +
          calculateRateBasedWithdrawal (s.capital + s.capital * p.monthlyReturn)
            p.withdrawalRate ∧
      (monthStep p false true ci s 0).currentMonthlyWithdrawal =
        calculateRateBasedWithdrawal (s.capital + s.capital * p.monthlyReturn)
          p.withdrawalRate) ∧
    (∀ m : ℕ, m ≠ 0 →
      (monthStep p false true ci s m).annualWithdrawal =
        s.annualWithdrawal + s.currentMonthlyWithdrawal ∧
      (monthStep p false true ci s m).currentMonthlyWithdrawal =
        s.currentMonthlyWithdrawal) ∧
    (∀ m : ℕ, 6 ≤ m → ∀ ir : Bool,
      (monthStep p true ir ci s m).annualWithdrawal =
        s.annualWithdrawal + s.currentMonthlyWithdrawal ∧
      (monthStep p true ir ci s m).currentMonthlyWithdrawal =
        s.currentMonthlyWithdrawal) := by
  refine ⟨?_, ?_, ?_⟩
  · simp only [monthStep, hb, Bool.false_eq_true, if_false, hc.not_le,
      Bool.not_true]
    split_ifs with h1 h2 <;> simp_all
  · intro m hm
    simp only [monthStep, hb, Bool.false_eq_true, if_false, hc.not_le,
      Bool.not_true]
    split_ifs with h1 h2 <;> simp_all
  · intro m hm ir
    simp only [monthStep, hb, Bool.false_eq_true, if_false, hc.not_le]
    split_ifs with h1 h2 h3 <;> simp_all <;> omega

set_option maxRecDepth 4000 in
/-- Witness for C3: a concrete held-fixed month (month 3 of a decumulation
year in `pThree`'s rate mode). -/
theorem C3_witness :
    (monthStep pThree false true 0
        (mkMonthState (stateAt pThree 2) (capital0At pThree 2)) 3).annualWithdrawal =
      (mkMonthState (stateAt pThree 2) (capital0At pThree 2)).annualWithdrawal +
        (mkMonthState (stateAt pThree 2) (capital0At pThree 2)).currentMonthlyWithdrawal ∧
    (monthStep pThree false true 0
        (mkMonthState (stateAt pThree 2) (capital0At pThree 2)) 3).currentMonthlyWithdrawal =
      (mkMonthState (stateAt pThree 2) (capital0At pThree 2)).currentMonthlyWithdrawal :=
  (C3_recompute_rule pThree (mkMonthState (stateAt pThree 2) (capital0At pThree 2)) 0
      rfl (by decide) (by decide) (by decide)).2.1 3 (by decide)


/-! ## C6: net cash flow excluding interest -/

omit [FloorRing α] in
theorem monthStep_annualInvestment_const (p : SimParams α) (ci : α)
    (s : MonthState α) (m : ℕ) :
    (monthStep p false true ci s m).annualInvestment = s.annualInvestment := by
  simp only [monthStep]
  split_ifs <;> simp_all

omit [FloorRing α] in
theorem monthStep_annualWithdrawal_const (p : SimParams α) (ci : α)
    (s : MonthState α) (m : ℕ) :
    (monthStep p false false ci s m).annualWithdrawal = s.annualWithdrawal := by
  simp only [monthStep]
  split_ifs <;> simp_all

omit [FloorRing α] in
theorem foldl_monthStep_annualInvestment_const (p : SimParams α) (ci : α) :
    ∀ (l : List ℕ) (s : MonthState α),
      ((l.foldl (monthStep p false true ci) s).annualInvestment =
        s.annualInvestment) := by
  intro l
  induction l with
  | nil => intro s; rfl
  | cons a t ih =>
      intro s
      rw [List.foldl_cons, ih, monthStep_annualInvestment_const]

omit [FloorRing α] in
theorem foldl_monthStep_annualWithdrawal_const (p : SimParams α) (ci : α) :
    ∀ (l : List ℕ) (s : MonthState α),
      ((l.foldl (monthStep p false false ci) s).annualWithdrawal =
        s.annualWithdrawal) := by
  intro l
  induction l with
  | nil => intro s; rfl
  | cons a t ih =>
      intro s
      rw [List.foldl_cons, ih, monthStep_annualWithdrawal_const]

omit [FloorRing α] in
theorem annualRun_annualInvestment_const (p : SimParams α) (ci : α)
    (s : MonthState α) :
    (annualRun p false true ci s).annualInvestment = s.annualInvestment := by
  simp only [annualRun]
  split_ifs <;> simp_all

omit [FloorRing α] in
theorem annualRun_annualWithdrawal_const (p : SimParams α) (ci : α)
    (s : MonthState α) :
    (annualRun p false false ci s).annualWithdrawal = s.annualWithdrawal := by
  simp only [annualRun]
  split_ifs <;> simp_all

omit [LinearOrderedField α] [FloorRing α] in
theorem isTransB_inRetB (p : SimParams α) (y : ℕ) (h : isTransB p y = true) :
    inRetB p y = true := by
  simp only [isTransB, decide_eq_true_eq] at h
  simp only [inRetB, decide_eq_true_eq, h, le_refl]

omit [FloorRing α] in
/-- In a non-transition decumulation year the cash-flow phase never touches
the contribution accumulator. -/
theorem yearCashFlow_no_investment (p : SimParams α) (y : ℕ)
    (st : SimState α) (cap0 : α) (hT : isTransB p y = false)
    (hR : inRetB p y = true) :
    (yearCashFlow p y st cap0).annualInvestment = 0 := by
  rw [yearCashFlow]
  cases p.compoundFrequency with
  | monthly =>
      rw [hT, hR, monthRun, foldl_monthStep_annualInvestment_const]
      rfl
  | annual =>
      rw [hT, hR, annualRun_annualInvestment_const]
      rfl

omit [FloorRing α] in
/-- In a pre-retirement year the cash-flow phase never touches the
withdrawal accumulator. -/
theorem yearCashFlow_no_withdrawal (p : SimParams α) (y : ℕ)
    (st : SimState α) (cap0 : α) (hT : isTransB p y = false)
    (hR : inRetB p y = false) :
    (yearCashFlow p y st cap0).annualWithdrawal = 0 := by
  rw [yearCashFlow]
  cases p.compoundFrequency with
  | monthly =>
      rw [hT, hR, monthRun, foldl_monthStep_annualWithdrawal_const]
      rfl
  | annual =>
      rw [hT, hR, annualRun_annualWithdrawal_const]
      rfl

/-- C6 (amended): the exact (pre-rounding) net cash flow excluding
interest of a year equals contributions minus withdrawals in every
non-transition year (where one of the two is zero); in the transition year
the source records `-annualWithdrawal`, ignoring the first-half-of-year
contributions (part_008 line 312). -/
theorem C6_net_variation (p : SimParams α) (y : ℕ) :
    (isTransB p y = false →
      (yearResAt p y).netVariationX =
        (yearResAt p y).annualInvestmentX - (yearResAt p y).annualWithdrawalX) ∧
    (isTransB p y = true →
      (yearResAt p y).netVariationX = -(yearResAt p y).annualWithdrawalX) := by
  by_cases hdep : (stateAt p y).capital ≤ 0
  · rw [yearResAt, yearOut_of_depleted _ _ _ _ hdep]
    constructor <;> intro <;> simp [yearResDepleted]
  · rw [yearResAt, yearOut_of_active _ _ _ _ hdep]
    constructor
    · intro hT
      simp only [yearResActive]
      by_cases hR : inRetB p y = true
      · rw [hR, if_pos rfl, yearCashFlow_no_investment p y _ _ hT hR]
        ring
      · rw [Bool.not_eq_true] at hR
        rw [hR, if_neg (by simp),
          yearCashFlow_no_withdrawal p y _ _ hT hR]
        ring
    · intro hT
      have hR := isTransB_inRetB p y hT
      simp only [yearResActive]
      rw [hR, if_pos rfl]

/-- Witness for C6: year 1 of `pOne` is a plain decumulation year, so the
exact net variation equals contributions minus withdrawals there. -/
theorem C6_witness :
    (yearResAt pOne 1).netVariationX =
      (yearResAt pOne 1).annualInvestmentX - (yearResAt pOne 1).annualWithdrawalX :=
  (C6_net_variation pOne 1).1 (by decide)


/-! ## C1: nonnegative capital and absorbing internal depletion -/

/-- Rounding a nonnegative value gives a nonnegative integer. -/
theorem round_nonneg_of_nonneg {x : α} (h : 0 ≤ x) : 0 ≤ round x := by
  rw [round_eq]
  exact Int.le_floor.mpr (by push_cast; linarith)

omit [FloorRing α] in
theorem monthStep_Q (p : SimParams α) (it ir : Bool) (ci : α)
    (s : MonthState α) (m : ℕ) (h : s.broken = true → s.capital = 0) :
    (monthStep p it ir ci s m).broken = true →
      (monthStep p it ir ci s m).capital = 0 := by
  simp only [monthStep]
  split_ifs <;> simp_all

omit [FloorRing α] in
theorem monthStep_capital_nonneg (p : SimParams α) (it ir : Bool) (ci : α)
    (s : MonthState α) (m : ℕ) (h : s.broken = true → s.capital = 0) :
    0 ≤ (monthStep p it ir ci s m).capital := by
  simp only [monthStep]
  split_ifs <;> simp_all

omit [FloorRing α] in
theorem foldl_monthStep_Q (p : SimParams α) (it ir : Bool) (ci : α) :
    ∀ (l : List ℕ) (s : MonthState α), (s.broken = true → s.capital = 0) →
      ((l.foldl (monthStep p it ir ci) s).broken = true →
        (l.foldl (monthStep p it ir ci) s).capital = 0) := by
  intro l
  induction l with
  | nil => intro s h; exact h
  | cons a t ih =>
      intro s h
      rw [List.foldl_cons]
      exact ih _ (monthStep_Q p it ir ci s a h)

omit [FloorRing α] in
theorem foldl_monthStep_capital_nonneg (p : SimParams α) (it ir : Bool)
    (ci : α) :
    ∀ (l : List ℕ), l ≠ [] → ∀ (s : MonthState α),
      (s.broken = true → s.capital = 0) →
      0 ≤ (l.foldl (monthStep p it ir ci) s).capital := by
  intro l
  induction l with
  | nil => intro h; exact absurd rfl h
  | cons a t ih =>
      intro _ s h
      rw [List.foldl_cons]
      rcases eq_or_ne t [] with ht | ht
      · subst ht
        exact monthStep_capital_nonneg p it ir ci s a h
      · exact ih ht _ (monthStep_Q p it ir ci s a h)

omit [FloorRing α] in
theorem annualRun_capital_nonneg (p : SimParams α) (it ir : Bool) (ci : α)
    (s : MonthState α) : 0 ≤ (annualRun p it ir ci s).capital := by
  simp only [annualRun]
  split_ifs <;> simp_all

omit [FloorRing α] in
theorem yearCashFlow_capital_nonneg (p : SimParams α) (y : ℕ)
    (st : SimState α) (cap0 : α) :
    0 ≤ (yearCashFlow p y st cap0).capital := by
  rw [yearCashFlow]
  cases p.compoundFrequency with
  | monthly =>
      exact foldl_monthStep_capital_nonneg p _ _ _ (List.range 12) (by simp) _
        (by simp [mkMonthState])
  | annual => exact annualRun_capital_nonneg ..

/-- Every snapshot displays a nonnegative capital. -/
theorem snapAt_capital_nonneg (p : SimParams α) (y : ℕ) :
    0 ≤ (snapAt p y).capital := by
  rw [snapAt, yearResAt]
  by_cases hdep : (stateAt p y).capital ≤ 0
  · rw [yearOut_of_depleted _ _ _ _ hdep]
    exact le_refl 0
  · rw [yearOut_of_active _ _ _ _ hdep]
    simp only [yearResActive]
    exact round_nonneg_of_nonneg (yearCashFlow_capital_nonneg ..)

/-- The depleted short-circuit leaves the outer state untouched (except for
the flag), so internal depletion is absorbing. -/
theorem stateAt_depleted_step (p : SimParams α) {y : ℕ}
    (h : (stateAt p y).capital ≤ 0) :
    stateAt p (y + 1) = { stateAt p y with isCapitalDepleted := true } := by
  rw [stateAt_succ, yearResAt, yearOut_of_depleted _ _ _ _ h]
  rfl

theorem stateAt_nonpos_mono (p : SimParams α) {y : ℕ}
    (h : (stateAt p y).capital ≤ 0) :
    ∀ j, y ≤ j → (stateAt p j).capital ≤ 0 := by
  intro j hj
  induction j, hj using Nat.le_induction with
  | base => exact h
  | succ j hj ih => rw [stateAt_depleted_step p ih]; exact ih

theorem snapAt_of_depleted (p : SimParams α) {y : ℕ}
    (h : (stateAt p y).capital ≤ 0) :
    (snapAt p y).capital = 0 ∧ (snapAt p y).annualInterest = 0 ∧
    (snapAt p y).annualInvestment = 0 ∧ (snapAt p y).annualWithdrawal = 0 := by
  rw [snapAt, yearResAt, yearOut_of_depleted _ _ _ _ h]
  exact ⟨rfl, rfl, rfl, rfl⟩

/-- C1 (amended): every snapshot has `capital ≥ 0`; and once the internal
(unrounded) capital is `≤ 0` at the start of a year — the depleted
short-circuit — that year's and every later snapshot record capital 0 and
zero interest, contribution and withdrawal.  (A snapshot can, however,
display `capital == 0` by rounding while the internal balance is still
positive, and the next year then still accrues flows: see `C1_cx`.) -/
theorem C1_absorbing (p : SimParams α) :
    (∀ i (hi : i < (calculateSimulation p).length),
        0 ≤ ((calculateSimulation p).get ⟨i, hi⟩).capital) ∧
    (∀ y j (hj : j < (calculateSimulation p).length),
        (stateAt p y).capital ≤ 0 → y ≤ j →
        ((calculateSimulation p).get ⟨j, hj⟩).capital = 0 ∧
        ((calculateSimulation p).get ⟨j, hj⟩).annualInterest = 0 ∧
        ((calculateSimulation p).get ⟨j, hj⟩).annualInvestment = 0 ∧
        ((calculateSimulation p).get ⟨j, hj⟩).annualWithdrawal = 0) := by
  constructor
  · intro i hi
    rw [calculateSimulation_get]
    exact snapAt_capital_nonneg p i
  · intro y j hj hy hle
    rw [calculateSimulation_get]
    exact snapAt_of_depleted p (stateAt_nonpos_mono p hy j hle)

/-- Witness for C1: in `pOne` the internal capital is depleted from year 3
on, and year 4's snapshot is all-zero. -/
theorem C1_witness :
    ((calculateSimulation pOne).get ⟨4, by decide⟩).capital = 0 ∧
    ((calculateSimulation pOne).get ⟨4, by decide⟩).annualInterest = 0 ∧
    ((calculateSimulation pOne).get ⟨4, by decide⟩).annualInvestment = 0 ∧
    ((calculateSimulation pOne).get ⟨4, by decide⟩).annualWithdrawal = 0 :=
  (C1_absorbing pOne).2 3 4 (by decide) (by decide) (by decide)


/-! ## C10: cumulative totals -/

omit [FloorRing α] in
theorem calculateRateBasedWithdrawal_nonneg {capital rate : α}
    (hc : 0 ≤ capital) (hr : 0 ≤ rate) :
    0 ≤ calculateRateBasedWithdrawal capital rate :=
  div_nonneg (mul_nonneg hc (div_nonneg hr (by norm_num))) (by norm_num)

omit [FloorRing α] in
theorem monthStep_mono (p : SimParams α) (it ir : Bool) (ci : α)
    (s : MonthState α) (m : ℕ) (hr : 0 ≤ p.withdrawalRate)
    (hm : (-1 : α) ≤ p.monthlyReturn) (hci : 0 ≤ ci)
    (hw : 0 ≤ s.currentMonthlyWithdrawal) :
    0 ≤ (monthStep p it ir ci s m).currentMonthlyWithdrawal ∧
    s.totalInvested ≤ (monthStep p it ir ci s m).totalInvested ∧
    s.totalWithdrawn ≤ (monthStep p it ir ci s m).totalWithdrawn := by
  by_cases hb : s.broken = true
  · simp [monthStep, hb, hw]
  · rw [Bool.not_eq_true] at hb
    by_cases hc : s.capital ≤ 0
    · simp [monthStep, hb, hc, hw]
    · have hcap : 0 ≤ s.capital + s.capital * p.monthlyReturn := by
        nlinarith [not_le.mp hc]
      have hrb : 0 ≤ calculateRateBasedWithdrawal
          (s.capital + s.capital * p.monthlyReturn) p.withdrawalRate :=
        calculateRateBasedWithdrawal_nonneg hcap hr
      simp only [monthStep, hb, Bool.false_eq_true, if_false, hc, if_false]
      split_ifs <;> refine ⟨?_, ?_, ?_⟩ <;> simp_all

omit [FloorRing α] in
theorem foldl_monthStep_mono (p : SimParams α) (it ir : Bool) (ci : α)
    (hr : 0 ≤ p.withdrawalRate) (hm : (-1 : α) ≤ p.monthlyReturn)
    (hci : 0 ≤ ci) :
    ∀ (l : List ℕ) (s : MonthState α), 0 ≤ s.currentMonthlyWithdrawal →
      0 ≤ ((l.foldl (monthStep p it ir ci) s).currentMonthlyWithdrawal) ∧
      s.totalInvested ≤ (l.foldl (monthStep p it ir ci) s).totalInvested ∧
      s.totalWithdrawn ≤ (l.foldl (monthStep p it ir ci) s).totalWithdrawn := by
  intro l
  induction l with
  | nil => intro s hw; exact ⟨hw, le_refl _, le_refl _⟩
  | cons a t ih =>
      intro s hw
      rw [List.foldl_cons]
      obtain ⟨hw1, hi1, hd1⟩ := monthStep_mono p it ir ci s a hr hm hci hw
      obtain ⟨hw2, hi2, hd2⟩ := ih _ hw1
      exact ⟨hw2, le_trans hi1 hi2, le_trans hd1 hd2⟩

omit [FloorRing α] in
theorem annualRun_mono (p : SimParams α) (it ir : Bool) (ci : α)
    (s : MonthState α) (hr : 0 ≤ p.withdrawalRate) (hci : 0 ≤ ci)
    (hw : 0 ≤ s.currentMonthlyWithdrawal) :
    0 ≤ (annualRun p it ir ci s).currentMonthlyWithdrawal ∧
    s.totalInvested ≤ (annualRun p it ir ci s).totalInvested ∧
    s.totalWithdrawn ≤ (annualRun p it ir ci s).totalWithdrawn := by
  by_cases hc : s.capital ≤ 0
  · simp [annualRun, hc, hw]
  · have hrb : 0 ≤ calculateRateBasedWithdrawal s.capital p.withdrawalRate :=
      calculateRateBasedWithdrawal_nonneg (le_of_lt (not_le.mp hc)) hr
    simp only [annualRun, hc, if_false]
    split_ifs <;> refine ⟨?_, ?_, ?_⟩ <;> simp_all

omit [FloorRing α] in
theorem yearCashFlow_mono (p : SimParams α) (y : ℕ) (st : SimState α)
    (cap0 : α) (hr : 0 ≤ p.withdrawalRate) (hm : (-1 : α) ≤ p.monthlyReturn)
    (hci : 0 ≤ st.currentMonthlyInvestment)
    (hw : 0 ≤ st.currentMonthlyWithdrawal) :
    0 ≤ (yearCashFlow p y st cap0).currentMonthlyWithdrawal ∧
    st.totalInvested ≤ (yearCashFlow p y st cap0).totalInvested ∧
    st.totalWithdrawn ≤ (yearCashFlow p y st cap0).totalWithdrawn := by
  rw [yearCashFlow]
  cases p.compoundFrequency with
  | monthly =>
      exact foldl_monthStep_mono p _ _ _ hr hm hci (List.range 12)
        (mkMonthState st cap0) hw
  | annual => exact annualRun_mono p _ _ _ _ hr hci hw

/-- One year of simulation preserves nonnegative contribution/withdrawal
rates and never decreases the cumulative totals; the pushed snapshot
carries the new totals. -/
theorem yearOut_mono (p : SimParams α) (y : ℕ) (st : SimState α)
    (data : List (GraphDataPoint α)) (hr : 0 ≤ p.withdrawalRate)
    (hm : (-1 : α) ≤ p.monthlyReturn) (hf : 0 ≤ 1 + p.inflation / 100)
    (hci : 0 ≤ st.currentMonthlyInvestment)
    (hw : 0 ≤ st.currentMonthlyWithdrawal) :
    (0 ≤ (yearOut p y st data).state.currentMonthlyInvestment ∧
     0 ≤ (yearOut p y st data).state.currentMonthlyWithdrawal) ∧
    st.totalInvested ≤ (yearOut p y st data).state.totalInvested ∧
    st.totalWithdrawn ≤ (yearOut p y st data).state.totalWithdrawn ∧
    (yearOut p y st data).snap.totalInvested =
      (yearOut p y st data).state.totalInvested ∧
    (yearOut p y st data).snap.totalWithdrawn =
      (yearOut p y st data).state.totalWithdrawn := by
  by_cases hdep : st.capital ≤ 0
  · rw [yearOut_of_depleted _ _ _ _ hdep]
    exact ⟨⟨hci, hw⟩, le_refl _, le_refl _, rfl, rfl⟩
  · rw [yearOut_of_active _ _ _ _ hdep]
    obtain ⟨hw1, hi1, hd1⟩ := yearCashFlow_mono p y st
      (transitionCapital p y st data) hr hm hci hw
    refine ⟨⟨?_, ?_⟩, hi1, hd1, rfl, rfl⟩
    · show 0 ≤ newInvAfter p y st
      rw [newInvAfter]
      split_ifs
      · exact mul_nonneg hci hf
      · exact hci
    · show 0 ≤ newWdAfter p y (yearCashFlow p y st (transitionCapital p y st data))
      rw [newWdAfter]
      split_ifs
      · exact mul_nonneg hw1 hf
      · exact hw1

theorem stateAt_rates_nonneg (p : SimParams α) (hr : 0 ≤ p.withdrawalRate)
    (hm : (-1 : α) ≤ p.monthlyReturn) (hf : 0 ≤ 1 + p.inflation / 100)
    (hci0 : 0 ≤ p.monthlyInvestment) (hw0 : 0 ≤ initialWithdrawal p) :
    ∀ n, 0 ≤ (stateAt p n).currentMonthlyInvestment ∧
      0 ≤ (stateAt p n).currentMonthlyWithdrawal := by
  intro n
  induction n with
  | zero => exact ⟨hci0, hw0⟩
  | succ n ih =>
      rw [stateAt_succ, yearResAt]
      exact (yearOut_mono p n (stateAt p n) (dataAt p n) hr hm hf ih.1 ih.2).1

theorem stateAt_totals_mono (p : SimParams α) (hr : 0 ≤ p.withdrawalRate)
    (hm : (-1 : α) ≤ p.monthlyReturn) (hf : 0 ≤ 1 + p.inflation / 100)
    (hci0 : 0 ≤ p.monthlyInvestment) (hw0 : 0 ≤ initialWithdrawal p) :
    ∀ a b, a ≤ b →
      (stateAt p a).totalInvested ≤ (stateAt p b).totalInvested ∧
      (stateAt p a).totalWithdrawn ≤ (stateAt p b).totalWithdrawn := by
  intro a b hab
  induction b, hab using Nat.le_induction with
  | base => exact ⟨le_refl _, le_refl _⟩
  | succ b hab ih =>
      have hn := stateAt_rates_nonneg p hr hm hf hci0 hw0 b
      obtain ⟨-, hTI, hTW, -, -⟩ :=
        yearOut_mono p b (stateAt p b) (dataAt p b) hr hm hf hn.1 hn.2
      rw [stateAt_succ, yearResAt]
      exact ⟨le_trans ih.1 hTI, le_trans ih.2 hTW⟩

/-- The snapshot of year `y` carries the same cumulative totals as the
state entering year `y + 1`. -/
theorem snapAt_totals (p : SimParams α) (y : ℕ) :
    (snapAt p y).totalInvested = (stateAt p (y + 1)).totalInvested ∧
    (snapAt p y).totalWithdrawn = (stateAt p (y + 1)).totalWithdrawn := by
  rw [stateAt_succ, snapAt, yearResAt]
  by_cases hdep : (stateAt p y).capital ≤ 0
  · rw [yearOut_of_depleted _ _ _ _ hdep]
    exact ⟨rfl, rfl⟩
  · rw [yearOut_of_active _ _ _ _ hdep]
    exact ⟨rfl, rfl⟩

theorem snapAt_cwi_active (p : SimParams α) (y : ℕ)
    (h : ¬ (stateAt p y).capital ≤ 0) :
    (snapAt p y).capitalWithoutInterest =
      round (max 0 ((snapAt p y).totalInvested - (snapAt p y).totalWithdrawn)) := by
  rw [snapAt, yearResAt, yearOut_of_active _ _ _ _ h]
  rfl

/-- C10 (amended): with nonnegative cash-flow parameters, the cumulative
totals recorded in the snapshots are non-decreasing, `totalInvested` never
drops below the initial capital, `totalWithdrawn` stays nonnegative, and in
every actively-simulated year the snapshot satisfies
`capitalWithoutInterest = round (max 0 (totalInvested - totalWithdrawn))`;
the all-zero snapshots pushed after depletion store
`capitalWithoutInterest = 0` regardless of the totals they carry (see
`C10_cx`). -/
theorem C10_totals (p : SimParams α) (hr : 0 ≤ p.withdrawalRate)
    (hm : (-1 : α) ≤ p.monthlyReturn) (hf : 0 ≤ 1 + p.inflation / 100)
    (hci0 : 0 ≤ p.monthlyInvestment) (hw0 : 0 ≤ initialWithdrawal p) :
    (∀ i j (hi : i < (calculateSimulation p).length)
        (hj : j < (calculateSimulation p).length), i ≤ j →
      ((calculateSimulation p).get ⟨i, hi⟩).totalInvested ≤
        ((calculateSimulation p).get ⟨j, hj⟩).totalInvested ∧
      ((calculateSimulation p).get ⟨i, hi⟩).totalWithdrawn ≤
        ((calculateSimulation p).get ⟨j, hj⟩).totalWithdrawn) ∧
    (∀ i (hi : i < (calculateSimulation p).length),
      p.initialCapital ≤ ((calculateSimulation p).get ⟨i, hi⟩).totalInvested ∧
      0 ≤ ((calculateSimulation p).get ⟨i, hi⟩).totalWithdrawn) ∧
    (∀ i (hi : i < (calculateSimulation p).length),
      ¬ (stateAt p i).capital ≤ 0 →
      ((calculateSimulation p).get ⟨i, hi⟩).capitalWithoutInterest =
        round (max 0 (((calculateSimulation p).get ⟨i, hi⟩).totalInvested -
          ((calculateSimulation p).get ⟨i, hi⟩).totalWithdrawn))) ∧
    (∀ i (hi : i < (calculateSimulation p).length),
      (stateAt p i).capital ≤ 0 →
      ((calculateSimulation p).get ⟨i, hi⟩).capitalWithoutInterest = 0) := by
  refine ⟨?_, ?_, ?_, ?_⟩
  · intro i j hi hj hij
    rw [calculateSimulation_get, calculateSimulation_get]
    obtain ⟨hTIi, hTWi⟩ := snapAt_totals p i
    obtain ⟨hTIj, hTWj⟩ := snapAt_totals p j
    rw [hTIi, hTWi, hTIj, hTWj]
    exact stateAt_totals_mono p hr hm hf hci0 hw0 (i + 1) (j + 1)
      (Nat.succ_le_succ hij)
  · intro i hi
    rw [calculateSimulation_get]
    obtain ⟨hTI, hTW⟩ := snapAt_totals p i
    rw [hTI, hTW]
    have h0 := stateAt_totals_mono p hr hm hf hci0 hw0 0 (i + 1) (Nat.zero_le _)
    exact ⟨h0.1, h0.2⟩
  · intro i hi hact
    rw [calculateSimulation_get]
    exact snapAt_cwi_active p i hact
  · intro i hi hdep
    rw [calculateSimulation_get]
    rw [snapAt, yearResAt, yearOut_of_depleted _ _ _ _ hdep]
    rfl

/-- Witness for C10 at `pOne` (all cash-flow parameters nonnegative):
monotone totals between snapshots 0 and 2, and the active-year
`capitalWithoutInterest` identity at snapshot 0. -/
theorem C10_witness :
    ((calculateSimulation pOne).get ⟨0, by decide⟩).totalInvested ≤
      ((calculateSimulation pOne).get ⟨2, by decide⟩).totalInvested ∧
    ((calculateSimulation pOne).get ⟨0, by decide⟩).totalWithdrawn ≤
      ((calculateSimulation pOne).get ⟨2, by decide⟩).totalWithdrawn :=
  (C10_totals pOne (by decide) (by decide) (by decide) (by decide)
    (by decide)).1 0 2 (by decide) (by decide) (by decide)


/-! ## C8: compounding-convention comparison

Zero-contribution, zero-withdrawal runs in the two compounding modes, with
the rate derivation of part_008 lines 100–103 carried as an explicit
hypothesis (`(1 + monthlyRate)^12 = 1 + rate/100`, the defining property of
`monthlyRate = (1 + rate/100)^(1/12) - 1`). -/

/-- Annual-compounding parameters with zero flows (retirement in the
current year, `"amount"` mode with zero withdrawal).  Derived fields as the
source computes them: `monthlyReturn = (rate/100)/12` (line 103) and the
annual closed form over 0 years for `capitalAtRetirement`. -/
def pEightAnnual (P r : α) : SimParams α :=
  { initialCapital := P, monthlyInvestment := 0, annualReturnRate := r,
    inflation := 0, monthlyRetirementWithdrawal := 0,
    withdrawalMode := WithdrawalMode.amount, withdrawalRate := 0,
    ageModeWithdrawal := 0, compoundFrequency := CompoundFrequency.annual,
    currentYear := 2025, currentAge := 40, retirementStartYear := 2025,
    maxAge := 95, monthlyReturn := r / 100 / 12,
    capitalAtRetirement := calculateFutureValueAnnual P r 0 0 }

/-- Monthly-compounding parameters with zero flows; `mr` is the derived
monthly rate `(1 + r/100)^(1/12) - 1` of line 102, and
`capitalAtRetirement` is the monthly closed form over 0 months, which
equals `P`. -/
def pEightMonthly (P r mr : α) : SimParams α :=
  { initialCapital := P, monthlyInvestment := 0, annualReturnRate := r,
    inflation := 0, monthlyRetirementWithdrawal := 0,
    withdrawalMode := WithdrawalMode.amount, withdrawalRate := 0,
    ageModeWithdrawal := 0, compoundFrequency := CompoundFrequency.monthly,
    currentYear := 2025, currentAge := 40, retirementStartYear := 2025,
    maxAge := 95, monthlyReturn := mr, capitalAtRetirement := P }

omit [FloorRing α] in
/-- When the retirement year is the current year, the reconciliation of
part_008 lines 162–187 never fires. -/
theorem transitionCapital_of_retnow (p : SimParams α) (y : ℕ)
    (st : SimState α) (data : List (GraphDataPoint α))
    (hret : p.retirementStartYear = p.currentYear) :
    transitionCapital p y st data = st.capital := by
  rw [transitionCapital]
  rcases Nat.eq_zero_or_pos y with hy | hy
  · subst hy; simp
  · have hT : isTransB p y = false := by
      simp only [isTransB, hret, decide_eq_false_iff_not]
      omega
    simp [hT]

omit [FloorRing α] in
theorem monthStep_zero_flows (p : SimParams α) (it ir : Bool)
    (s : MonthState α) (m : ℕ)
    (hmode : p.withdrawalMode = WithdrawalMode.amount)
    (hpos : 0 < s.capital) (hb : s.broken = false)
    (hwd : s.currentMonthlyWithdrawal = 0)
    (h1m : 0 < 1 + p.monthlyReturn) :
    (monthStep p it ir 0 s m).capital = s.capital * (1 + p.monthlyReturn) ∧
    (monthStep p it ir 0 s m).currentMonthlyWithdrawal = 0 ∧
    (monthStep p it ir 0 s m).broken = false := by
  have hcap : 0 < s.capital + s.capital * p.monthlyReturn := by nlinarith
  have hmode' : ¬ (p.withdrawalMode = WithdrawalMode.rate ∧
      p.withdrawalRate ≠ 0 ∧ m = 0) := by
    rintro ⟨h, -, -⟩
    rw [hmode] at h
    exact absurd h (by simp)
  simp only [monthStep, hb, Bool.false_eq_true, if_false, hpos.not_le,
    hmode', hwd]
  split_ifs <;> refine ⟨?_, ?_, ?_⟩ <;> simp_all <;> ring_nf <;> nlinarith

omit [FloorRing α] in
theorem foldl_monthStep_zero_flows (p : SimParams α) (it ir : Bool)
    (hmode : p.withdrawalMode = WithdrawalMode.amount)
    (h1m : 0 < 1 + p.monthlyReturn) :
    ∀ (k : ℕ) (s : MonthState α), 0 < s.capital → s.broken = false →
      s.currentMonthlyWithdrawal = 0 →
      ((List.range k).foldl (monthStep p it ir 0) s).capital =
        s.capital * (1 + p.monthlyReturn) ^ k ∧
      ((List.range k).foldl (monthStep p it ir 0) s).currentMonthlyWithdrawal = 0 ∧
      ((List.range k).foldl (monthStep p it ir 0) s).broken = false := by
  intro k
  induction k with
  | zero =>
      intro s hpos hb hwd
      refine ⟨?_, hwd, hb⟩
      rw [pow_zero, mul_one]
      rfl
  | succ k ih =>
      intro s hpos hb hwd
      rw [List.range_succ, List.foldl_append, List.foldl_cons, List.foldl_nil]
      obtain ⟨hc, hw, hbr⟩ := ih s hpos hb hwd
      have hpos' : 0 < ((List.range k).foldl (monthStep p it ir 0) s).capital := by
        rw [hc]
        exact mul_pos hpos (pow_pos h1m k)
      obtain ⟨hc', hw', hbr'⟩ :=
        monthStep_zero_flows p it ir _ k hmode hpos' hbr hw h1m
      refine ⟨?_, hw', hbr'⟩
      rw [hc', hc, pow_succ]
      ring

omit [LinearOrderedField α] [FloorRing α] in
theorem inRetB_retnow (p : SimParams α) (y : ℕ)
    (hret : p.retirementStartYear = p.currentYear) : inRetB p y = true := by
  simp only [inRetB, hret, decide_eq_true_eq]
  omega

omit [FloorRing α] in
theorem annualRun_zero_flows (p : SimParams α) (it : Bool)
    (s : MonthState α)
    (hmode : p.withdrawalMode = WithdrawalMode.amount)
    (hpos : 0 < s.capital) (hb : s.broken = false)
    (hwd : s.currentMonthlyWithdrawal = 0)
    (h1r : 0 < 1 + p.annualReturnRate / 100) :
    (annualRun p it true 0 s).capital = s.capital * (1 + p.annualReturnRate / 100) ∧
    (annualRun p it true 0 s).currentMonthlyWithdrawal = 0 ∧
    (annualRun p it true 0 s).broken = false := by
  have hmode' : ¬ (p.withdrawalMode = WithdrawalMode.rate ∧
      p.withdrawalRate ≠ 0) := by
    rintro ⟨h, -⟩
    rw [hmode] at h
    exact absurd h (by simp)
  have hnn : ¬ (s.capital + s.capital * (p.annualReturnRate / 100) < 0) := by
    nlinarith
  cases it <;>
    simp only [annualRun, hpos.not_le, hmode', hwd, hb, Bool.not_true,
      Bool.false_eq_true, Bool.true_eq_false, if_true, if_false, ite_false,
      ite_true, zero_mul, mul_zero, sub_zero, add_zero, zero_add,
      max_eq_right hpos.le] <;>
    rw [if_neg hnn] <;> exact ⟨by ring, rfl, rfl⟩

/-- Capital trajectory of the zero-flow annual-compounding run:
`P * (1 + r/100)^n` after `n` years. -/
theorem stateAt_pEightAnnual (P r : α) (hP : 0 ≤ P)
    (h1r : 0 < 1 + r / 100) :
    ∀ n, (stateAt (pEightAnnual P r) n).capital = P * (1 + r / 100) ^ n ∧
      (stateAt (pEightAnnual P r) n).currentMonthlyWithdrawal = 0 ∧
      (stateAt (pEightAnnual P r) n).currentMonthlyInvestment = 0 := by
  intro n
  induction n with
  | zero =>
      refine ⟨?_, rfl, rfl⟩
      rw [pow_zero, mul_one]
      rfl
  | succ n ih =>
      obtain ⟨hc, hw, hi⟩ := ih
      rw [stateAt_succ, yearResAt]
      rcases eq_or_lt_of_le hP with hP0 | hP0
      · have hdep : (stateAt (pEightAnnual P r) n).capital ≤ 0 := by
          rw [hc, ← hP0, zero_mul]
        rw [yearOut_of_depleted _ _ _ _ hdep]
        refine ⟨?_, hw, hi⟩
        show (stateAt (pEightAnnual P r) n).capital = _
        rw [hc, ← hP0, zero_mul, zero_mul]
      · have hpos : 0 < (stateAt (pEightAnnual P r) n).capital := by
          rw [hc]
          exact mul_pos hP0 (pow_pos h1r n)
        rw [yearOut_of_active _ _ _ _ (not_le.mpr hpos)]
        simp only [yearResActive]
        rw [transitionCapital_of_retnow _ _ _ _ rfl]
        have hcf : yearCashFlow (pEightAnnual P r) n
            (stateAt (pEightAnnual P r) n)
            (stateAt (pEightAnnual P r) n).capital =
            annualRun (pEightAnnual P r) (isTransB (pEightAnnual P r) n)
              (inRetB (pEightAnnual P r) n)
              (stateAt (pEightAnnual P r) n).currentMonthlyInvestment
              (mkMonthState (stateAt (pEightAnnual P r) n)
                (stateAt (pEightAnnual P r) n).capital) := rfl
        rw [hcf, hi, inRetB_retnow (pEightAnnual P r) n rfl]
        obtain ⟨hca, hwa, hba⟩ := annualRun_zero_flows (pEightAnnual P r)
          (isTransB (pEightAnnual P r) n)
          (mkMonthState (stateAt (pEightAnnual P r) n)
            (stateAt (pEightAnnual P r) n).capital)
          rfl (by exact hpos) rfl (by exact hw) h1r
        refine ⟨?_, ?_, ?_⟩
        · show (annualRun _ _ _ 0 _).capital = _
          rw [hca]
          show (stateAt (pEightAnnual P r) n).capital * (1 + r / 100) =
            P * (1 + r / 100) ^ (n + 1)
          rw [hc, pow_succ]
          ring
        · show newWdAfter _ _ _ = 0
          rw [newWdAfter]
          split_ifs <;> simp [hwa]
        · show newInvAfter _ _ _ = 0
          rw [newInvAfter, hi]
          split_ifs <;> simp

/-- Capital trajectory of the zero-flow monthly-compounding run:
`P * (1 + monthlyRate)^(12n)` after `n` years. -/
theorem stateAt_pEightMonthly (P r mr : α) (hP : 0 ≤ P)
    (h1m : 0 < 1 + mr) :
    ∀ n, (stateAt (pEightMonthly P r mr) n).capital = P * (1 + mr) ^ (12 * n) ∧
      (stateAt (pEightMonthly P r mr) n).currentMonthlyWithdrawal = 0 ∧
      (stateAt (pEightMonthly P r mr) n).currentMonthlyInvestment = 0 := by
  intro n
  induction n with
  | zero =>
      refine ⟨?_, rfl, rfl⟩
      rw [Nat.mul_zero, pow_zero, mul_one]
      rfl
  | succ n ih =>
      obtain ⟨hc, hw, hi⟩ := ih
      rw [stateAt_succ, yearResAt]
      rcases eq_or_lt_of_le hP with hP0 | hP0
      · have hdep : (stateAt (pEightMonthly P r mr) n).capital ≤ 0 := by
          rw [hc, ← hP0, zero_mul]
        rw [yearOut_of_depleted _ _ _ _ hdep]
        refine ⟨?_, hw, hi⟩
        show (stateAt (pEightMonthly P r mr) n).capital = _
        rw [hc, ← hP0, zero_mul, zero_mul]
      · have hpos : 0 < (stateAt (pEightMonthly P r mr) n).capital := by
          rw [hc]
          exact mul_pos hP0 (pow_pos h1m _)
        rw [yearOut_of_active _ _ _ _ (not_le.mpr hpos)]
        simp only [yearResActive]
        rw [transitionCapital_of_retnow _ _ _ _ rfl]
        have hcf : yearCashFlow (pEightMonthly P r mr) n
            (stateAt (pEightMonthly P r mr) n)
            (stateAt (pEightMonthly P r mr) n).capital =
            (List.range 12).foldl
              (monthStep (pEightMonthly P r mr) (isTransB (pEightMonthly P r mr) n)
                (inRetB (pEightMonthly P r mr) n)
                (stateAt (pEightMonthly P r mr) n).currentMonthlyInvestment)
              (mkMonthState (stateAt (pEightMonthly P r mr) n)
                (stateAt (pEightMonthly P r mr) n).capital) := rfl
        rw [hcf, hi]
        obtain ⟨hcm, hwm, hbm⟩ := foldl_monthStep_zero_flows (pEightMonthly P r mr)
          (isTransB (pEightMonthly P r mr) n) (inRetB (pEightMonthly P r mr) n)
          rfl h1m 12
          (mkMonthState (stateAt (pEightMonthly P r mr) n)
            (stateAt (pEightMonthly P r mr) n).capital)
          (by exact hpos) rfl hw
        refine ⟨?_, ?_, ?_⟩
        · rw [hcm]
          show (stateAt (pEightMonthly P r mr) n).capital * (1 + mr) ^ 12 =
            P * (1 + mr) ^ (12 * (n + 1))
          rw [hc, Nat.mul_succ, pow_add]
          ring
        · show newWdAfter _ _ _ = 0
          rw [newWdAfter]
          split_ifs <;> simp [hwm]
        · show newInvAfter _ _ _ = 0
          rw [newInvAfter, hi]
          split_ifs <;> simp

/-- C8 (amended): with identical nominal rate and zero flows, the
annual-mode year-end capital is `P (1 + r/100)^n`, the monthly-mode
year-end capital is `P (1 + m)^(12n)` for the derived monthly rate `m`
with `(1 + m)^12 = 1 + r/100` — and the two are therefore **equal**: the
source's monthly rate is the growth-equivalent 12th root, not `r/12`, so
monthly compounding yields no extra growth over annual compounding. -/
theorem C8_compounding (P r mr : α) (hP : 0 ≤ P) (hr : 0 < r)
    (h1m : 0 < 1 + mr) (hroot : (1 + mr) ^ 12 = 1 + r / 100) (n : ℕ)
    (_hn : n ≤ numYears (pEightAnnual P r)) :
    (stateAt (pEightAnnual P r) n).capital = P * (1 + r / 100) ^ n ∧
    (stateAt (pEightMonthly P r mr) n).capital = P * (1 + mr) ^ (12 * n) ∧
    (stateAt (pEightMonthly P r mr) n).capital =
      (stateAt (pEightAnnual P r) n).capital := by
  have h1r : 0 < 1 + r / 100 := by linarith
  obtain ⟨ha, -, -⟩ := stateAt_pEightAnnual P r hP h1r n
  obtain ⟨hm, -, -⟩ := stateAt_pEightMonthly P r mr hP h1m n
  refine ⟨ha, hm, ?_⟩
  rw [ha, hm, pow_mul, hroot]

/-- C8, counterexample: at `P = 10000`, `r = 5%`, with the source's derived
monthly rate `(1.05)^(1/12) - 1`, the monthly-mode capital after one year
is **not** strictly greater than the annual-mode capital — the two are
equal, refuting the claimed strict inequality for `rate > 0`. -/
theorem C8_cx :
    ¬ ((stateAt (pEightAnnual (10000 : ℝ) 5) 1).capital <
        (stateAt (pEightMonthly (10000 : ℝ) 5
          ((1 + 5 / 100 : ℝ) ^ ((1 : ℝ) / 12) - 1)) 1).capital) := by
  have hb : (0 : ℝ) < (1 + 5 / 100 : ℝ) ^ ((1 : ℝ) / 12) :=
    Real.rpow_pos_of_pos (by norm_num) _
  have h1m : (0 : ℝ) < 1 + ((1 + 5 / 100 : ℝ) ^ ((1 : ℝ) / 12) - 1) := by
    linarith
  have hroot : (1 + ((1 + 5 / 100 : ℝ) ^ ((1 : ℝ) / 12) - 1)) ^ 12 =
      1 + (5 : ℝ) / 100 := by
    have h : 1 + ((1 + 5 / 100 : ℝ) ^ ((1 : ℝ) / 12) - 1) =
        (1 + 5 / 100 : ℝ) ^ ((1 : ℝ) / 12) := by ring
    rw [h, ← Real.rpow_natCast ((1 + 5 / 100 : ℝ) ^ ((1 : ℝ) / 12)) 12,
      ← Real.rpow_mul (by norm_num)]
    norm_num
  obtain ⟨ha, -, -⟩ := stateAt_pEightAnnual (10000 : ℝ) 5 (by norm_num)
    (by norm_num) 1
  obtain ⟨hm, -, -⟩ := stateAt_pEightMonthly (10000 : ℝ) 5
    ((1 + 5 / 100 : ℝ) ^ ((1 : ℝ) / 12) - 1) (by norm_num) h1m 1
  rw [ha, hm, pow_mul, hroot]
  exact lt_irrefl _

/-- Witness for C8 at the same concrete inputs, one year out. -/
theorem C8_witness :
    (stateAt (pEightAnnual (10000 : ℝ) 5) 1).capital =
      10000 * (1 + (5 : ℝ) / 100) ^ 1 ∧
    (stateAt (pEightMonthly (10000 : ℝ) 5
        ((1 + 5 / 100 : ℝ) ^ ((1 : ℝ) / 12) - 1)) 1).capital =
      10000 * (1 + ((1 + 5 / 100 : ℝ) ^ ((1 : ℝ) / 12) - 1)) ^ (12 * 1) ∧
    (stateAt (pEightMonthly (10000 : ℝ) 5
        ((1 + 5 / 100 : ℝ) ^ ((1 : ℝ) / 12) - 1)) 1).capital =
      (stateAt (pEightAnnual (10000 : ℝ) 5) 1).capital :=
  C8_compounding (10000 : ℝ) 5 ((1 + 5 / 100 : ℝ) ^ ((1 : ℝ) / 12) - 1)
    (by norm_num)
    (by norm_num)
    (by
      have h := Real.rpow_pos_of_pos (show (0:ℝ) < 1 + 5 / 100 by norm_num)
        ((1 : ℝ) / 12)
      linarith)
    (by
      have h : 1 + ((1 + 5 / 100 : ℝ) ^ ((1 : ℝ) / 12) - 1) =
          (1 + 5 / 100 : ℝ) ^ ((1 : ℝ) / 12) := by ring
      rw [h, ← Real.rpow_natCast ((1 + 5 / 100 : ℝ) ^ ((1 : ℝ) / 12)) 12,
        ← Real.rpow_mul (by norm_num)]
      norm_num)
    1
    (by norm_num [numYears, simulationDuration, targetMaxAge, pEightAnnual])


/-! ## C5 and C7: the closed-form annuity library over ℝ

JavaScript arithmetic on these paths divides by the derived monthly rate
and by the period count and takes a 12th root; a non-finite intermediate
(`NaN`, `±Infinity`) contaminates the result.  The embedding works in
`Option ℝ`: `none` is the class of non-finite results. -/

/-- Division with non-finite tracking: JavaScript `a / 0` is `NaN` or
`±Infinity`. -/
noncomputable def jsDiv (a b : ℝ) : Option ℝ :=
  if b = 0 then none else some (a / b)

/-- JavaScript `Math.pow(x, 1/12)`: the real 12th root for `x ≥ 0`, `NaN`
(a non-integer power of a negative base) otherwise. -/
noncomputable def jsRoot12 (x : ℝ) : Option ℝ :=
  if 0 ≤ x then some (x ^ ((1 : ℝ) / 12)) else none

/-- `calculateFutureValue` of src/src/utils/financialCalculations.ts lines
16–33 (identical to the monthly branch of src/unnamed/part_002 lines
26–37): `monthlyRate = (1 + annualRate/100)^(1/12) - 1`,
`principalFV = principal * (1 + monthlyRate)^totalMonths`,
`contributionFV = monthlyContribution * (((1 + monthlyRate)^totalMonths - 1)
/ monthlyRate)`, and the sum of the two. -/
noncomputable def calculateFutureValue (principal annualRate : ℝ)
    (years : ℕ) (monthlyContribution : ℝ) : Option ℝ :=
  (jsRoot12 (1 + annualRate / 100)).bind fun root =>
    let monthlyRate := root - 1
    let totalMonths : ℕ := years * 12
    let principalFV := principal * (1 + monthlyRate) ^ totalMonths
    (jsDiv ((1 + monthlyRate) ^ totalMonths - 1) monthlyRate).map
      fun annuityFactor => principalFV + monthlyContribution * annuityFactor

/-- `calculateWithdrawalAmount` of src/src/utils/financialCalculations.ts
lines 43–68:
`1 + realAnnualRate = (1 + annualRate/100) / (1 + inflation/100)` (the
Fisher relation), `realMonthlyRate = (1 + realAnnualRate)^(1/12) - 1`, the
straight-line fallback `principal / totalMonths` when
`realMonthlyRate ≤ 0`, otherwise the annuity payment
`principal * realMonthlyRate / (1 - (1 + realMonthlyRate)^(-totalMonths))`. -/
noncomputable def calculateWithdrawalAmount (principal annualRate : ℝ)
    (years : ℕ) (inflation : ℝ) : Option ℝ :=
  (jsDiv (1 + annualRate / 100) (1 + inflation / 100)).bind fun onePlusReal =>
    (jsRoot12 onePlusReal).bind fun root =>
      let realMonthlyRate := root - 1
      let totalMonths : ℝ := (years : ℝ) * 12
      if realMonthlyRate ≤ 0 then jsDiv principal totalMonths
      else
        jsDiv (principal * realMonthlyRate)
          (1 - (1 + realMonthlyRate) ^ (-totalMonths))

/-- C7: the zero-rate fixed point fails in the code.  At `annualRate = 0`
the derived monthly rate is `0` and the contribution term divides by it
(`(1^120 - 1)/0 = 0/0 = NaN` in JavaScript), so
`calculateFutureValue(100, 0, 10, 0)` is non-finite instead of the
specified `100`. -/
theorem C7_zero_rate_not_fixed_point :
    calculateFutureValue 100 0 10 0 = none := by
  have h1 : (1 : ℝ) + 0 / 100 = 1 := by norm_num
  have hroot : jsRoot12 ((1 : ℝ) + 0 / 100) = some 1 := by
    rw [jsRoot12, if_pos (by norm_num)]
    rw [h1, Real.one_rpow]
  rw [calculateFutureValue, hroot, Option.some_bind]
  have hdiv : jsDiv (((1 : ℝ) + (1 - 1)) ^ (10 * 12) - 1) (1 - 1) = none := by
    rw [jsDiv, if_pos (by norm_num)]
  simp only [hdiv, Option.map_none']

/-- C5, counterexample: `calculateWithdrawalAmount` has no guard for a
zero period count.  With `years = 0` and a positive real rate the
annuity denominator is `1 - (1 + r)^0 = 0` and the result is non-finite —
the claimed straight-line fallback (and finiteness) fails at
`periods ≤ 0`. -/
theorem C5_cx : calculateWithdrawalAmount 100000 5 0 2 = none := by
  have h102 : ¬ ((1 : ℝ) + 2 / 100 = 0) := by norm_num
  have hq : (0 : ℝ) < (1 + 5 / 100) / (1 + 2 / 100) := by norm_num
  have hroot : 1 < (((1 : ℝ) + 5 / 100) / (1 + 2 / 100)) ^ ((1 : ℝ) / 12) :=
    (Real.one_lt_rpow_iff_of_pos hq).mpr (Or.inl ⟨by norm_num, by norm_num⟩)
  rw [calculateWithdrawalAmount, jsDiv, if_neg h102, Option.some_bind,
    jsRoot12, if_pos hq.le, Option.some_bind]
  rw [if_neg (by linarith :
    ¬ (((1 : ℝ) + 5 / 100) / (1 + 2 / 100)) ^ ((1 : ℝ) / 12) - 1 ≤ 0)]
  have hexp : -(((0 : ℕ) : ℝ) * 12) = 0 := by norm_num
  rw [hexp, Real.rpow_zero]
  rw [jsDiv, if_pos (by norm_num)]

/-- C5 (amended): for `years ≥ 1` and rates above `-100%` the result is
always finite, and the straight-line fallback `principal / totalMonths` is
taken exactly when the effective real rate is `≤ 0`; the `periods ≤ 0`
case has no fallback and is non-finite (see `C5_cx`). -/
theorem C5_fallback_and_finite (P r i : ℝ) (y : ℕ) (hy : 1 ≤ y)
    (hr : -100 < r) (hi : -100 < i) :
    (calculateWithdrawalAmount P r y i).isSome = true ∧
    ((1 + r / 100) / (1 + i / 100) ≤ 1 →
      calculateWithdrawalAmount P r y i = some (P / ((y : ℝ) * 12))) := by
  have hiP : (0 : ℝ) < 1 + i / 100 := by linarith
  have hrP : (0 : ℝ) < 1 + r / 100 := by linarith
  have hq : (0 : ℝ) < (1 + r / 100) / (1 + i / 100) := div_pos hrP hiP
  have hy12 : (0 : ℝ) < (y : ℝ) * 12 := by
    have : (0 : ℝ) < (y : ℝ) := by exact_mod_cast Nat.lt_of_lt_of_le Nat.zero_lt_one hy
    linarith
  rw [calculateWithdrawalAmount, jsDiv, if_neg hiP.ne', Option.some_bind,
    jsRoot12, if_pos hq.le, Option.some_bind]
  by_cases hcase : (1 + r / 100) / (1 + i / 100) ≤ 1
  · have hrm : ((1 + r / 100) / (1 + i / 100)) ^ ((1 : ℝ) / 12) - 1 ≤ 0 := by
      have := Real.rpow_le_one hq.le hcase (by norm_num : (0:ℝ) ≤ 1 / 12)
      linarith
    rw [if_pos hrm, jsDiv, if_neg hy12.ne']
    exact ⟨rfl, fun _ => rfl⟩
  · have h1q : 1 < (1 + r / 100) / (1 + i / 100) := not_le.mp hcase
    have hroot : 1 < ((1 + r / 100) / (1 + i / 100)) ^ ((1 : ℝ) / 12) :=
      (Real.one_lt_rpow_iff_of_pos hq).mpr (Or.inl ⟨h1q, by norm_num⟩)
    rw [if_neg (by linarith :
      ¬ ((1 + r / 100) / (1 + i / 100)) ^ ((1 : ℝ) / 12) - 1 ≤ 0)]
    have hbase : (1 : ℝ) + (((1 + r / 100) / (1 + i / 100)) ^ ((1 : ℝ) / 12) - 1) =
        ((1 + r / 100) / (1 + i / 100)) ^ ((1 : ℝ) / 12) := by ring
    have hlt1 : (1 + (((1 + r / 100) / (1 + i / 100)) ^ ((1 : ℝ) / 12) - 1) : ℝ) ^
        (-((y : ℝ) * 12)) < 1 := by
      rw [hbase]
      exact Real.rpow_lt_one_of_one_lt_of_neg hroot (by linarith)
    have hden : ¬ ((1 : ℝ) -
        (1 + (((1 + r / 100) / (1 + i / 100)) ^ ((1 : ℝ) / 12) - 1)) ^
          (-((y : ℝ) * 12)) = 0) := by
      intro h
      have : (1 + (((1 + r / 100) / (1 + i / 100)) ^ ((1 : ℝ) / 12) - 1) : ℝ) ^
          (-((y : ℝ) * 12)) = 1 := by linarith
      rw [this] at hlt1
      exact lt_irrefl 1 hlt1
    rw [jsDiv, if_neg hden]
    exact ⟨rfl, fun h => absurd h hcase⟩

/-- Witness for C5: zero rates, one year — the straight-line fallback,
`1200 / 12`. -/
theorem C5_witness :
    (calculateWithdrawalAmount 1200 0 1 0).isSome = true ∧
    ((1 + (0:ℝ) / 100) / (1 + (0:ℝ) / 100) ≤ 1 →
      calculateWithdrawalAmount 1200 0 1 0 = some (1200 / (((1:ℕ) : ℝ) * 12))) :=
  C5_fallback_and_finite 1200 0 0 1 (le_refl 1) (by norm_num) (by norm_num)

end Retirement
